import Mathlib

/-!
Verification development for the campus-mate backend (src/app.py).

The development shallowly embeds the retrieval/ranking engine
(`deep_search`), the knowledge-base reload (`reload_kb_data`), the chat
prompt assembly and HTTP status behaviour of the Flask routes, and — where
the repository source for the credential-rotation controller is not among
the provided files — a model of that controller built from the design
document.  Python strings are embedded as Lean `String`, Python string
operations are implemented character-wise over `String.toList` so that
every definition evaluates inside the kernel.
-/

namespace CampusMate

/- ## String primitives (Python string operations used by src/app.py) -/

/-- Python `s.lower()`: character-wise lower-casing. -/
def lowerStr (s : String) : String := String.mk (s.toList.map Char.toLower)

/-- Python `needle in haystack` on strings: substring occurrence. -/
def pyIn (needle haystack : String) : Bool :=
  decide (needle.toList <:+: haystack.toList)

/-- Helper for `pySplit`: walks the characters, accumulating the current
token in reverse. -/
def pySplitAux : List Char → List Char → List String
  | [], acc => if acc.isEmpty then [] else [String.mk acc.reverse]
  | c :: cs, acc =>
    if c.isWhitespace then
      if acc.isEmpty then pySplitAux cs []
      else String.mk acc.reverse :: pySplitAux cs []
    else pySplitAux cs (c :: acc)

/-- Python `s.split()` with no argument: split on runs of whitespace,
producing no empty tokens. -/
def pySplit (s : String) : List String := pySplitAux s.toList []

/-- Truthiness of Python `s.strip()`: the stripped string is non-empty
exactly when `s` has a non-whitespace character, i.e. when dropping leading
whitespace leaves something. -/
def pyStripNonempty (s : String) : Bool :=
  !(s.toList.dropWhile Char.isWhitespace).isEmpty

theorem toList_append (a b : String) : (a ++ b).toList = a.toList ++ b.toList :=
  String.data_append a b

theorem lowerStr_toList (s : String) :
    (lowerStr s).toList = s.toList.map Char.toLower := rfl

theorem lowerStr_append (a b : String) :
    lowerStr (a ++ b) = lowerStr a ++ lowerStr b := by
  cases a with
  | mk la =>
    cases b with
    | mk lb =>
      show String.mk (((String.mk la ++ String.mk lb)).toList.map Char.toLower) = _
      have h : (String.mk la ++ String.mk lb).toList = la ++ lb := rfl
      simp only [h, lowerStr, List.map_append]
      rfl

/- ## Data model: knowledge records (documents of the `knowledge_base`
collection read by `reload_kb_data`, src/app.py lines 66-90) -/

/-- One knowledge-base document.  `idRepr` is the rendering of the Mongo
`_id` field, `details` the serialized details object, mirroring the fields
the code reads via `doc.get`. -/
structure KnowledgeRecord where
  idRepr : String
  title : String
  details : String
  text_for_ai : String
deriving DecidableEq

/-- The lower-cased title, `doc.get` of the title field followed by
`.lower()` (src/app.py line 118). -/
def lowerTitle (d : KnowledgeRecord) : String := lowerStr d.title

/-- Leading part of the Python `str(doc)` dict rendering, up to the title
value. -/
def docPre (d : KnowledgeRecord) : String :=
  "\x7b\x27_id\x27: " ++ d.idRepr ++ ", \x27title\x27: \x27"

/-- Trailing part of the Python `str(doc)` dict rendering, after the title
value. -/
def docPost (d : KnowledgeRecord) : String :=
  "\x27, \x27details\x27: " ++ d.details ++ ", \x27text_for_ai\x27: \x27" ++
    d.text_for_ai ++ "\x27\x7d"

/-- `str(doc).lower()` (src/app.py line 116): the case-insensitive
full-text rendering of a record. -/
def docStr (d : KnowledgeRecord) : String :=
  lowerStr (docPre d ++ d.title ++ docPost d)

/- ## SearchRanker: deep_search (src/app.py lines 102-138) -/

/-- `[w.lower() for w in query.split() if len(w) > 2]` (line 106): the
retained, lower-cased query tokens. -/
def keywordsOf (query : String) : List String :=
  ((pySplit query).filter fun w => 2 < w.length).map lowerStr

/-- The score contribution of one token against one record: +1 for a
full-text match, +5 for a title match (lines 120-124). -/
def tokScore (k : String) (d : KnowledgeRecord) : Nat :=
  (if pyIn k (docStr d) then 1 else 0) + (if pyIn k (lowerTitle d) then 5 else 0)

/-- One iteration of the scoring loop body (lines 120-124): the running
score gets +1 on a full-text match and +5 on a title match. -/
def scoreStep (d : KnowledgeRecord) (score : Nat) (k : String) : Nat :=
  (if pyIn k (docStr d) then score + 1 else score) +
    (if pyIn k (lowerTitle d) then 5 else 0)

/-- The relevance score of a record: the scoring loop of lines 114-124. -/
def scoreDoc (keys : List String) (d : KnowledgeRecord) : Nat :=
  keys.foldl (scoreStep d) 0

/-- `scored_results` after the loop (lines 110-126): each record paired
with its score, records with score 0 dropped, corpus order preserved. -/
def scoredResults (keys : List String) (kb : List KnowledgeRecord) :
    List (Nat × KnowledgeRecord) :=
  (kb.map fun d => (scoreDoc keys d, d)).filter fun p => 0 < p.1

/-- Comparison used by the descending stable sort of line 128: an earlier
element stays before a later one exactly when its score is at least as
large. -/
def scoreGE (a b : Nat × KnowledgeRecord) : Prop := b.1 ≤ a.1

instance : DecidableRel scoreGE := fun a b => Nat.decLe b.1 a.1

instance : IsTotal (Nat × KnowledgeRecord) scoreGE := ⟨fun a b => Nat.le_total b.1 a.1⟩

instance : IsTrans (Nat × KnowledgeRecord) scoreGE :=
  ⟨fun _ _ _ h1 h2 => Nat.le_trans h2 h1⟩

/-- `scored_results.sort(key=lambda x: x[0], reverse=True)` (line 128):
Python `list.sort` is stable, so the descending order is realised as a
stable insertion sort on the score-at-least comparison. -/
def sortDesc (l : List (Nat × KnowledgeRecord)) : List (Nat × KnowledgeRecord) :=
  l.insertionSort scoreGE

/-- The at-most-five highest-scored entries, still paired with their
scores (`scored_results[:5]`, line 130). -/
def topRanked (query : String) (kb : List KnowledgeRecord) :
    List (Nat × KnowledgeRecord) :=
  (sortDesc (scoredResults (keywordsOf query) kb)).take 5

/-- `top_docs = [item[1] for item in scored_results[:5]]` (line 130). -/
def topDocs (query : String) (kb : List KnowledgeRecord) : List KnowledgeRecord :=
  (topRanked query kb).map Prod.snd

/-- Tail of one rendered source block (line 136), after the leading
`--- SOURCE ` marker. -/
def blockTail (i : Nat) (d : KnowledgeRecord) : String :=
  toString (i + 1) ++ " ---\nTitle: " ++ d.title ++ "\nDetails: " ++ d.details ++
    "\nSummary: " ++ d.text_for_ai ++ "\n\n"

/-- One rendered source block of the evidence context (line 136). -/
def renderBlock (i : Nat) (d : KnowledgeRecord) : String :=
  "--- SOURCE " ++ blockTail i d

/-- The context-accumulation loop of lines 132-136, carrying the 0-based
index `i`. -/
def renderFrom : Nat → List KnowledgeRecord → String
  | _, [] => ""
  | i, d :: ds => renderBlock i d ++ renderFrom (i + 1) ds

/-- `deep_search` (src/app.py lines 102-138): empty store and
no-retained-keyword queries short-circuit to the empty context; otherwise
the top-five scored records are rendered. -/
def deep_search (query : String) (kb : List KnowledgeRecord) : String :=
  if kb = [] then ""
  else if keywordsOf query = [] then ""
  else renderFrom 0 (topDocs query kb)

/- ## KnowledgeStore reload (src/app.py lines 66-90) and the /reload route
(lines 150-162) -/

/-- Outcome of the Mongo fetch `list(collection.find({}))`: either the full
record list or a raised exception. -/
inductive FetchResult where
  | ok (records : List KnowledgeRecord)
  | err (msg : String)
deriving DecidableEq

/-- `reload_kb_data` (lines 66-90), as a function of the fetch outcome and
the previously active `KNOWLEDGE_BASE`: on success the snapshot is replaced
and `True` returned; on an exception the handler assigns
`KNOWLEDGE_BASE = []` and returns `False`.  The result pairs the returned
flag with the new value of `KNOWLEDGE_BASE`. -/
def reload_kb_data : FetchResult → List KnowledgeRecord → Bool × List KnowledgeRecord
  | FetchResult.ok records, _ => (true, records)
  | FetchResult.err _, _ => (false, [])

/-- HTTP status of the /reload route (lines 150-162): 200 when
`reload_kb_data` returned `True`, 500 otherwise. -/
def reloadStatus (success : Bool) : Nat := if success then 200 else 500

/- ## Chat route (src/app.py lines 166-282) -/

/-- The optional `file` object of a /chat request body. -/
structure FileData where
  name : String
  mime_type : Option String
  data : Option String
deriving DecidableEq

/-- One element of `prompt_parts`: a mime-typed binary blob or plain
text. -/
inductive PromptPart where
  | blob (mime : String) (data : String)
  | text (s : String)
deriving DecidableEq

/-- Helper for `stripB64Header`: Python `s.split(",")` over the character
list. -/
def commaSplitAux : List Char → List Char → List (List Char)
  | [], acc => [acc.reverse]
  | c :: cs, acc =>
    if c = ',' then acc.reverse :: commaSplitAux cs []
    else commaSplitAux cs (c :: acc)

/-- Lines 196-198: if the base64 payload has a data-URL header, keep only
the part after the first comma (`base64_str.split(",")[1]`). -/
def stripB64Header (s : String) : String :=
  if pyIn "," s then String.mk ((commaSplitAux s.toList []).getD 1 []) else s

/-- Lines 190-210: the attachment blob is appended to `prompt_parts` only
when a file object with a truthy `data` field is present. -/
def attachmentParts : Option FileData → List PromptPart
  | none => []
  | some fd =>
    match fd.data with
    | none => []
    | some b64 =>
      if b64 = "" then []
      else [PromptPart.blob (fd.mime_type.getD "image/png") (stripB64Header b64)]

/-- Lines 218-220: an empty message accompanied by a file is replaced by
the fixed analysis instruction. -/
def effectiveMessage (user_message : String) (file_data : Option FileData) : String :=
  if user_message = "" ∧ file_data.isSome = true then
    "Analyze this image/document and tell me what it is about."
  else user_message

/-- The grounded prompt of lines 230-246, constraining the answer to the
retrieved source data. -/
def groundedPrompt (context user_message : String) : String :=
  "\n        You are the CampusBot for RLJIT.\n        Answer the user\x27s question using ONLY the Source Data provided below.\n       \n        SOURCE DATA:\n        " ++
    context ++ "\n       \n        USER QUESTION: " ++ user_message ++ "\n        "

/-- The general-instructions prompt of lines 250-266. -/
def generalPrompt (user_message : String) : String :=
  "\n        You are the CampusBot for RLJIT.\n       \n        If a file is attached, analyze it carefully.\n        If it\x27s an image of a document, transcribe key details.\n        If it\x27s a campus photo, describe it.\n       \n        USER QUESTION: " ++
    user_message ++ "\n        "

/-- The branch condition of line 228, `if context.strip() and not
file_data`: the grounded prompt is chosen exactly when the retrieved
context strips to a non-empty string and no file object is present. -/
def usesGroundedPrompt (user_message : String) (file_data : Option FileData)
    (kb : List KnowledgeRecord) : Bool :=
  pyStripNonempty (deep_search (effectiveMessage user_message file_data) kb) &&
    file_data.isNone

/-- The full `prompt_parts` list sent to the generation call (lines
186-266): the optional attachment blob followed by exactly one text
prompt. -/
def chatPromptParts (user_message : String) (file_data : Option FileData)
    (kb : List KnowledgeRecord) : List PromptPart :=
  attachmentParts file_data ++
    [if usesGroundedPrompt user_message file_data kb then
        PromptPart.text
          (groundedPrompt (deep_search (effectiveMessage user_message file_data) kb)
            (effectiveMessage user_message file_data))
      else PromptPart.text (generalPrompt (effectiveMessage user_message file_data))]

/-- Classified failure of the generation call.  The code itself never
inspects the class: every exception reaches the same handler. -/
inductive GenError where
  | rateLimited (msg : String)
  | other (msg : String)
deriving DecidableEq

/-- Outcome of `model.generate_content(prompt_parts)` at line 274. -/
inductive GenResult where
  | ok (text : String)
  | err (e : GenError)
deriving DecidableEq

/-- HTTP status of the /chat route (lines 270-282): 200 on success, 500
for every exception raised by the generation call — the handler
`except Exception` does not distinguish rate-limit errors. -/
def chatStatus : GenResult → Nat
  | GenResult.ok _ => 200
  | GenResult.err _ => 500

/- ## Credential pool and generation gateway.

Modelled from the spec: the credential-rotation and bounded-retry
controller (design document sections 4.3 and 4.4) exists only in
repository drafts that are not among the provided source files;
src/app.py configures the single `GOOGLE_API_KEY` and makes one
generation attempt.  The definitions below follow the design document
wording. -/

/-- Modelled from the spec: `CredentialPool` (section 4.3), an ordered
collection of outbound-API credentials with a rotation cursor. -/
structure CredentialPool where
  credentials : List String
  cursor : Nat
deriving DecidableEq

/-- Modelled from the spec: `current()` returns the credential at the
cursor, or none if the pool is empty. -/
def CredentialPool.current (p : CredentialPool) : Option String :=
  p.credentials[p.cursor]?

/-- Modelled from the spec: `rotate()` advances the cursor to
`(cursor+1) mod len(credentials)` only if more than one credential
exists; a single-credential pool never rotates. -/
def CredentialPool.rotate (p : CredentialPool) : CredentialPool :=
  if p.credentials.length ≤ 1 then p
  else { p with cursor := (p.cursor + 1) % p.credentials.length }

/-- Classified result of one outbound generation call (retryable =
rate-limit/quota signals; fatal = anything else). -/
inductive CallResult where
  | ok (text : String)
  | retryable (msg : String)
  | fatal (msg : String)
deriving DecidableEq

/-- Terminal state of the generation state machine, carrying the number of
attempts made. -/
inductive GenOutcome where
  | success (text : String)
  | fatalFailure (msg : String) (attempts : Nat)
  | exhausted (attempts : Nat)
deriving DecidableEq

/-- Modelled from the spec: the bounded retry loop of
`GenerationGateway.generate` (section 4.4).  `fuel` is the number of
attempts still allowed, `made` the number already made; each attempt uses
the current credential, a retryable failure rotates and retries, a fatal
failure or a success terminates at once. -/
def generateGo (call : String → CallResult) :
    Nat → CredentialPool → Nat → GenOutcome
  | 0, _, made => GenOutcome.exhausted made
  | fuel + 1, p, made =>
    match p.current with
    | none => GenOutcome.exhausted made
    | some cred =>
      match call cred with
      | CallResult.ok t => GenOutcome.success t
      | CallResult.fatal m => GenOutcome.fatalFailure m (made + 1)
      | CallResult.retryable _ => generateGo call fuel p.rotate (made + 1)

/-- Modelled from the spec: `GenerationGateway.generate`, allowing at most
`len(credentials)` attempts. -/
def generate (call : String → CallResult) (p : CredentialPool) : GenOutcome :=
  generateGo call p.credentials.length p 0

/- ## Concrete records used by witnesses and counterexamples -/

/-- A record whose title contains the demonstration keyword. -/
def recLibrary : KnowledgeRecord :=
  { idRepr := "ObjectId(\x271\x27)", title := "Library Hours",
    details := "\x7b\x7d", text_for_ai := "Open 9am to 9pm" }

/-- A record that contains the demonstration keyword only in its body. -/
def recAdmission : KnowledgeRecord :=
  { idRepr := "ObjectId(\x272\x27)", title := "Admission",
    details := "\x7b\x7d", text_for_ai := "library deadline June" }

/-- A one-record knowledge base used by witnesses. -/
def demoKB : List KnowledgeRecord := [recLibrary]

/- ## Scoring lemmas -/

theorem scoreStep_eq (d : KnowledgeRecord) (s : Nat) (k : String) :
    scoreStep d s k = s + tokScore k d := by
  unfold scoreStep tokScore
  split <;> split <;> omega

theorem foldl_scoreStep (d : KnowledgeRecord) :
    ∀ (keys : List String) (a : Nat),
      keys.foldl (scoreStep d) a = a + (keys.map fun k => tokScore k d).sum := by
  intro keys
  induction keys with
  | nil => intro a; simp [List.foldl_nil]
  | cons k ks ih =>
    intro a
    rw [List.foldl_cons, ih, scoreStep_eq, List.map_cons, List.sum_cons]
    omega

theorem scoreDoc_eq_sum (keys : List String) (d : KnowledgeRecord) :
    scoreDoc keys d = (keys.map fun k => tokScore k d).sum := by
  simpa using foldl_scoreStep d keys 0

theorem mem_scoredResults (keys : List String) (kb : List KnowledgeRecord)
    (d : KnowledgeRecord) :
    ((scoreDoc keys d, d) ∈ scoredResults keys kb ↔ d ∈ kb ∧ 0 < scoreDoc keys d) := by
  unfold scoredResults
  constructor
  · intro h
    rcases List.mem_filter.mp h with ⟨hm, hp⟩
    rcases List.mem_map.mp hm with ⟨d2, hd2, he⟩
    have hdd : d2 = d := congrArg Prod.snd he
    subst hdd
    exact ⟨hd2, by simpa using hp⟩
  · intro h
    exact List.mem_filter.mpr ⟨List.mem_map.mpr ⟨d, h.1, rfl⟩, by simpa using h.2⟩

/-- C2: the relevance score of a record is the sum, over the retained
query tokens, of +1 for an occurrence in the case-insensitive full-text
rendering plus an additional +5 for an occurrence in the lower-cased
title; and a record enters the scored results exactly when it is in the
store with positive score (zero-score records are excluded). -/
theorem deep_search_score_formula (q : String) (kb : List KnowledgeRecord)
    (d : KnowledgeRecord) :
    scoreDoc (keywordsOf q) d =
      ((keywordsOf q).map fun k =>
        (if pyIn k (docStr d) then 1 else 0) +
          (if pyIn k (lowerTitle d) then 5 else 0)).sum ∧
    ((scoreDoc (keywordsOf q) d, d) ∈ scoredResults (keywordsOf q) kb ↔
      d ∈ kb ∧ 0 < scoreDoc (keywordsOf q) d) :=
  ⟨scoreDoc_eq_sum (keywordsOf q) d, mem_scoredResults (keywordsOf q) kb d⟩

/- ## C10: empty store short-circuits -/

/-- C10: on an empty knowledge store, `deep_search` returns the empty
context for every query; by the shape of the definition this is the first
branch, taken before keywords are computed or any record scored. -/
theorem deep_search_empty_store (q : String) : deep_search q [] = "" := rfl

/- ## C4: queries with only short tokens -/

/-- C4: if every whitespace-split token of the query has length at most 2,
`deep_search` returns the empty context, whatever the store holds. -/
theorem short_tokens_empty_context (q : String) (kb : List KnowledgeRecord)
    (h : ∀ w ∈ pySplit q, w.length ≤ 2) :
    deep_search q kb = "" := by
  have hk : keywordsOf q = [] := by
    unfold keywordsOf
    have hf : (pySplit q).filter (fun w => 2 < w.length) = [] := by
      refine List.filter_eq_nil_iff.mpr ?_
      intro w hw
      simpa using Nat.not_lt.mpr (h w hw)
    rw [hf, List.map_nil]
  unfold deep_search
  by_cases hkb : kb = [] <;> simp [hkb, hk]

set_option maxRecDepth 4000 in
theorem short_tokens_empty_context_witness :
    (∀ w ∈ pySplit "is an it", w.length ≤ 2) ∧ deep_search "is an it" demoKB = "" :=
  ⟨by decide, short_tokens_empty_context "is an it" demoKB (by decide)⟩

/- ## C1: behaviour of a failed reload -/

/-- C1 fails on the code: at a non-empty previous snapshot and a failing
fetch, `reload_kb_data` leaves `KNOWLEDGE_BASE` empty rather than keeping
the previous records. -/
theorem reload_failure_counterexample :
    demoKB ≠ [] ∧
    (reload_kb_data (FetchResult.err "DB Load Error") demoKB).2 = [] ∧
    (reload_kb_data (FetchResult.err "DB Load Error") demoKB).2 ≠ demoKB :=
  ⟨by decide, rfl, by decide⟩

/-- C1 amended: when the fetch fails, `reload_kb_data` returns `False` and
clears the knowledge base — the set of records visible after a failed
reload is empty, regardless of the previously active snapshot. -/
theorem reload_failure_clears_kb (msg : String) (kb : List KnowledgeRecord) :
    (reload_kb_data (FetchResult.err msg) kb).1 = false ∧
    (reload_kb_data (FetchResult.err msg) kb).2 = [] :=
  ⟨rfl, rfl⟩

/- ## Sorting lemmas: the descending sort is stable -/

theorem orderedInsert_filter_score (x : Nat × KnowledgeRecord) (s : Nat) :
    ∀ l : List (Nat × KnowledgeRecord),
      (List.orderedInsert scoreGE x l).filter (fun p => p.1 = s) =
        if x.1 = s then x :: l.filter (fun p => p.1 = s)
        else l.filter (fun p => p.1 = s) := by
  intro l
  induction l with
  | nil =>
    rw [List.orderedInsert_nil]
    by_cases hx : x.1 = s <;> simp [List.filter, hx]
  | cons y ys ih =>
    by_cases hxy : scoreGE x y
    · rw [List.orderedInsert, if_pos hxy]
      by_cases hx : x.1 = s <;> simp [List.filter_cons, hx]
    · have hlt : x.1 < y.1 := Nat.lt_of_not_le hxy
      rw [List.orderedInsert, if_neg hxy, List.filter_cons, List.filter_cons, ih]
      by_cases hx : x.1 = s <;> by_cases hy : y.1 = s <;> simp [hx, hy]
      omega

theorem sortDesc_filter_score (s : Nat) :
    ∀ l : List (Nat × KnowledgeRecord),
      (sortDesc l).filter (fun p => p.1 = s) = l.filter (fun p => p.1 = s) := by
  intro l
  induction l with
  | nil => rfl
  | cons x xs ih =>
    show (List.orderedInsert scoreGE x (sortDesc xs)).filter _ = _
    rw [orderedInsert_filter_score, ih, List.filter_cons]
    by_cases hx : x.1 = s <;> simp [hx]

theorem sortDesc_sorted (l : List (Nat × KnowledgeRecord)) :
    (sortDesc l).Pairwise (fun a b => b.1 ≤ a.1) :=
  List.sorted_insertionSort scoreGE l

/- ## C3: the ranked context is a stable top-five -/

/-- C3: the ranked list feeding the evidence context has at most five
entries; its scores are non-increasing; restricted to any fixed score its
entries form a subsequence of the scored results in their original order
(stability); and the scored results themselves are a subsequence of the
corpus in corpus order. -/
theorem rank_top5_sorted_stable (q : String) (kb : List KnowledgeRecord) :
    (topRanked q kb).length ≤ 5 ∧
    (topRanked q kb).Pairwise (fun a b => b.1 ≤ a.1) ∧
    (∀ s : Nat, List.Sublist ((topRanked q kb).filter (fun p => p.1 = s))
      ((scoredResults (keywordsOf q) kb).filter (fun p => p.1 = s))) ∧
    List.Sublist (scoredResults (keywordsOf q) kb)
      (kb.map (fun d => (scoreDoc (keywordsOf q) d, d))) := by
  refine ⟨?_, ?_, ?_, ?_⟩
  · simp [topRanked, List.length_take]
  · exact (sortDesc_sorted _).sublist (List.take_sublist 5 _)
  · intro s
    have h1 : List.Sublist ((topRanked q kb).filter (fun p => p.1 = s))
        ((sortDesc (scoredResults (keywordsOf q) kb)).filter (fun p => p.1 = s)) :=
      List.Sublist.filter _ (List.take_sublist 5 _)
    rwa [sortDesc_filter_score] at h1
  · unfold scoredResults
    exact List.filter_sublist _

/- ## C5: a title match is worth at least five points -/

theorem title_infix_docStr (d : KnowledgeRecord) :
    (lowerTitle d).toList <:+: (docStr d).toList := by
  have h : docStr d = lowerStr (docPre d) ++ lowerTitle d ++ lowerStr (docPost d) := by
    unfold docStr lowerTitle
    rw [lowerStr_append, lowerStr_append]
  rw [h, toList_append, toList_append]
  exact ⟨(lowerStr (docPre d)).toList, (lowerStr (docPost d)).toList, rfl⟩

theorem pyIn_title_docStr (k : String) (d : KnowledgeRecord)
    (h : pyIn k (lowerTitle d) = true) : pyIn k (docStr d) = true := by
  have h1 : k.toList <:+: (lowerTitle d).toList := of_decide_eq_true h
  exact decide_eq_true (h1.trans (title_infix_docStr d))

theorem sum_tok_gap (r1 r2 : KnowledgeRecord) (k : String)
    (hgap : tokScore k r2 + 5 ≤ tokScore k r1) :
    ∀ keys : List String, k ∈ keys → (∀ a ∈ keys, tokScore a r2 ≤ tokScore a r1) →
      (keys.map fun a => tokScore a r2).sum + 5 ≤
        (keys.map fun a => tokScore a r1).sum := by
  intro keys
  induction keys with
  | nil => intro hk _; cases hk
  | cons a as ih =>
    intro hk hpt
    rw [List.map_cons, List.sum_cons, List.map_cons, List.sum_cons]
    rcases List.mem_cons.mp hk with h | h
    · subst h
      have h2 : (as.map fun x => tokScore x r2).sum ≤
          (as.map fun x => tokScore x r1).sum :=
        List.sum_le_sum fun i hi => hpt i (List.mem_cons_of_mem _ hi)
      omega
    · have h1 : tokScore a r2 ≤ tokScore a r1 := hpt a (List.mem_cons_self _ _)
      have h2 := ih h fun i hi => hpt i (List.mem_cons_of_mem _ hi)
      omega

/-- C5: take a retained token `k` and two records such that the first
matches `k` in its title while the second matches `k` only in its
full-text rendering and not in its title, and which are otherwise
identical for scoring (every other token contributes equally to both).
Then the first record scores at least 5 more than the second. -/
theorem title_match_scores_five_more (k : String) (keys : List String)
    (r1 r2 : KnowledgeRecord) (hk : k ∈ keys)
    (ht1 : pyIn k (lowerTitle r1) = true)
    (ht2 : pyIn k (lowerTitle r2) = false)
    (hb2 : pyIn k (docStr r2) = true)
    (same : ∀ k2 ∈ keys, k2 ≠ k → tokScore k2 r1 = tokScore k2 r2) :
    scoreDoc keys r2 + 5 ≤ scoreDoc keys r1 := by
  have hd1 : pyIn k (docStr r1) = true := pyIn_title_docStr k r1 ht1
  have hgap : tokScore k r2 + 5 ≤ tokScore k r1 := by
    simp [tokScore, hd1, ht1, ht2, hb2]
  have hpt : ∀ a ∈ keys, tokScore a r2 ≤ tokScore a r1 := by
    intro a ha
    by_cases hak : a = k
    · subst hak; omega
    · exact Nat.le_of_eq (same a ha hak).symm
  rw [scoreDoc_eq_sum, scoreDoc_eq_sum]
  exact sum_tok_gap r1 r2 k hgap keys hk hpt

set_option maxRecDepth 100000 in
theorem title_match_scores_five_more_witness :
    "library" ∈ ["library"] ∧
    pyIn "library" (lowerTitle recLibrary) = true ∧
    pyIn "library" (lowerTitle recAdmission) = false ∧
    pyIn "library" (docStr recAdmission) = true ∧
    (∀ k2 ∈ ["library"], k2 ≠ "library" →
      tokScore k2 recLibrary = tokScore k2 recAdmission) ∧
    scoreDoc ["library"] recAdmission + 5 ≤ scoreDoc ["library"] recLibrary :=
  ⟨by decide, by decide, by decide, by decide, by decide,
    title_match_scores_five_more "library" ["library"] recLibrary recAdmission
      (by decide) (by decide) (by decide) (by decide) (by decide)⟩

/- ## C8: attachment requests bypass the retrieval context -/

theorem dropWhile_ws_cons_dash (l : List Char) :
    ('-' :: l).dropWhile Char.isWhitespace = '-' :: l := by
  rw [List.dropWhile_cons]
  simp

theorem pyStripNonempty_renderFrom (i : Nat) (d : KnowledgeRecord)
    (rest : List KnowledgeRecord) :
    pyStripNonempty (renderFrom i (d :: rest)) = true := by
  have h : renderFrom i (d :: rest) =
      "--- SOURCE " ++ blockTail i d ++ renderFrom (i + 1) rest := rfl
  rw [h]
  unfold pyStripNonempty
  rw [toList_append, toList_append]
  have h2 : "--- SOURCE ".toList = '-' :: "-- SOURCE ".toList := rfl
  rw [h2, List.cons_append, List.cons_append, dropWhile_ws_cons_dash]
  rfl

/-- C8: a chat request carrying a file object never takes the grounded
prompt — the text part is the general-instructions prompt and the
retrieval context is not included; without a file, the grounded prompt is
taken exactly when `deep_search` returns a non-empty context. -/
theorem chat_context_usage (user_message : String) (kb : List KnowledgeRecord) :
    (∀ fd : FileData, usesGroundedPrompt user_message (some fd) kb = false) ∧
    (∀ fd : FileData, chatPromptParts user_message (some fd) kb =
      attachmentParts (some fd) ++
        [PromptPart.text (generalPrompt (effectiveMessage user_message (some fd)))]) ∧
    (usesGroundedPrompt user_message none kb = true ↔
      deep_search user_message kb ≠ "") := by
  refine ⟨?_, ?_, ?_⟩
  · intro fd; simp [usesGroundedPrompt]
  · intro fd; simp [chatPromptParts, usesGroundedPrompt]
  · have hm : effectiveMessage user_message none = user_message := by
      simp [effectiveMessage]
    constructor
    · intro h hds
      unfold usesGroundedPrompt at h
      rw [hm, hds] at h
      exact absurd h (by decide)
    · intro h
      unfold usesGroundedPrompt
      rw [hm]
      simp only [Option.isNone_none, Bool.and_true]
      unfold deep_search at h ⊢
      by_cases h1 : kb = []
      · simp [h1] at h
      · rw [if_neg h1] at h ⊢
        by_cases h2 : keywordsOf user_message = []
        · simp [h2] at h
        · rw [if_neg h2] at h ⊢
          cases htop : topDocs user_message kb with
          | nil => rw [htop] at h; exact absurd rfl h
          | cons d rest => exact pyStripNonempty_renderFrom 0 d rest

/- ## C6 and C7: credential rotation and the bounded retry loop -/

theorem rotate_credentials (p : CredentialPool) :
    p.rotate.credentials = p.credentials := by
  unfold CredentialPool.rotate
  split <;> rfl

theorem rotate_cursor_lt (p : CredentialPool)
    (h : p.cursor < p.credentials.length) :
    p.rotate.cursor < p.rotate.credentials.length := by
  rw [rotate_credentials]
  unfold CredentialPool.rotate
  split
  · exact h
  · next hh => simpa using Nat.mod_lt _ (by omega)

theorem rotate_fixed_of_short (p : CredentialPool)
    (h : p.credentials.length ≤ 1) : p.rotate = p := by
  unfold CredentialPool.rotate
  rw [if_pos h]

theorem generateGo_all_retryable (call : String → CallResult) :
    ∀ (fuel : Nat) (p : CredentialPool) (made : Nat),
      p.cursor < p.credentials.length →
      (∀ c ∈ p.credentials, ∃ m, call c = CallResult.retryable m) →
      generateGo call fuel p made = GenOutcome.exhausted (made + fuel) := by
  intro fuel
  induction fuel with
  | zero => intro p made _ _; rfl
  | succ n ih =>
    intro p made h1 h2
    have hcur : p.current = some (p.credentials.get ⟨p.cursor, h1⟩) := by
      unfold CredentialPool.current
      exact List.getElem?_eq_getElem h1
    rcases h2 _ (List.get_mem p.credentials p.cursor h1) with ⟨m, hm⟩
    simp only [generateGo, hcur, hm]
    rw [ih p.rotate (made + 1) (rotate_cursor_lt p h1)
      (by rw [rotate_credentials]; exact h2)]
    have h3 : made + 1 + n = made + (n + 1) := by omega
    rw [h3]

/-- C6 (spec-modelled): when every credential in the pool fails with a
retryable error, `generate` makes exactly `len(credentials)` attempts —
rotating the credential after each failure — and returns the exhausted
outcome carrying that attempt count. -/
theorem generate_all_retryable_exhausts (call : String → CallResult)
    (p : CredentialPool) (hc : p.cursor < p.credentials.length)
    (hr : ∀ c ∈ p.credentials, ∃ m, call c = CallResult.retryable m) :
    generate call p = GenOutcome.exhausted p.credentials.length := by
  have h := generateGo_all_retryable call p.credentials.length p 0 hc hr
  simpa [generate] using h

/-- A two-credential pool used by witnesses. -/
def demoPool : CredentialPool := { credentials := ["key1", "key2"], cursor := 0 }

/-- A generation call that always reports a quota error. -/
def demoCall : String → CallResult := fun _ => CallResult.retryable "429 quota exceeded"

theorem generate_all_retryable_exhausts_witness :
    demoPool.cursor < demoPool.credentials.length ∧
    (∀ c ∈ demoPool.credentials, ∃ m, demoCall c = CallResult.retryable m) ∧
    generate demoCall demoPool = GenOutcome.exhausted 2 :=
  ⟨by decide, fun _ _ => ⟨"429 quota exceeded", rfl⟩,
    generate_all_retryable_exhausts demoCall demoPool (by decide)
      (fun _ _ => ⟨"429 quota exceeded", rfl⟩)⟩

theorem rotate_iterate_cursor (p : CredentialPool)
    (hN : 1 < p.credentials.length) (h : p.cursor < p.credentials.length) :
    ∀ m : Nat, CredentialPool.rotate^[m] p =
      { credentials := p.credentials,
        cursor := (p.cursor + m) % p.credentials.length } := by
  intro m
  induction m with
  | zero =>
    simp [Nat.mod_eq_of_lt h]
  | succ n ih =>
    rw [Function.iterate_succ_apply', ih]
    unfold CredentialPool.rotate
    rw [if_neg (by simp; omega)]
    have harith : ((p.cursor + n) % p.credentials.length + 1) % p.credentials.length =
        (p.cursor + (n + 1)) % p.credentials.length := by
      conv_rhs => rw [show p.cursor + (n + 1) = p.cursor + n + 1 from by omega]
      rw [Nat.add_mod (p.cursor + n) 1, Nat.mod_eq_of_lt hN]
    simp [harith]

/-- C7 (spec-modelled): on a valid pool, `rotate` advances the cursor to
`(cursor+1) mod N` whenever more than one credential exists, `N` rotations
return the pool — and so the cursor — to its starting position, and on a
one-credential pool `rotate` is a no-op with `current()` unchanged. -/
theorem rotate_cycles (p : CredentialPool)
    (h : p.cursor < p.credentials.length) :
    (1 < p.credentials.length →
      p.rotate.cursor = (p.cursor + 1) % p.credentials.length) ∧
    CredentialPool.rotate^[p.credentials.length] p = p ∧
    (p.credentials.length = 1 →
      p.rotate = p ∧ p.rotate.current = p.current) := by
  by_cases hN : 1 < p.credentials.length
  · refine ⟨fun _ => ?_, ?_, fun h1 => absurd h1 (by omega)⟩
    · unfold CredentialPool.rotate
      rw [if_neg (by omega)]
    · rw [rotate_iterate_cursor p hN h p.credentials.length]
      have h2 : (p.cursor + p.credentials.length) % p.credentials.length = p.cursor := by
        rw [Nat.add_mod_right]
        exact Nat.mod_eq_of_lt h
      rw [h2]
  · have hle : p.credentials.length ≤ 1 := Nat.not_lt.mp hN
    have hfix := rotate_fixed_of_short p hle
    exact ⟨fun h1 => absurd h1 hN, Function.iterate_fixed hfix _,
      fun _ => ⟨hfix, by rw [hfix]⟩⟩

theorem rotate_cycles_witness :
    demoPool.cursor < demoPool.credentials.length ∧
    ((1 < demoPool.credentials.length →
      demoPool.rotate.cursor = (demoPool.cursor + 1) % demoPool.credentials.length) ∧
    CredentialPool.rotate^[demoPool.credentials.length] demoPool = demoPool ∧
    (demoPool.credentials.length = 1 →
      demoPool.rotate = demoPool ∧ demoPool.rotate.current = demoPool.current)) :=
  ⟨by decide, rotate_cycles demoPool (by decide)⟩

/- ## C9: HTTP status codes -/

/-- C9 fails on the code: a rate-limited generation failure is answered
with status 500, not 503 — the /chat handler catches every exception with
the same 500 response. -/
theorem chat_rate_limited_500_counterexample :
    chatStatus (GenResult.err (GenError.rateLimited "429 quota exceeded")) = 500 ∧
    chatStatus (GenResult.err (GenError.rateLimited "429 quota exceeded")) ≠ 503 :=
  ⟨rfl, by decide⟩

/-- C9 amended: the HTTP surface returns 200 on success and 500 on load or
generation failure; every generation failure, including rate-limit
exhaustion, yields 500, and no /chat or /reload response carries 503. -/
theorem http_status_codes (r : GenResult) (b : Bool) :
    (∀ t, chatStatus (GenResult.ok t) = 200) ∧
    (∀ e, chatStatus (GenResult.err e) = 500) ∧
    reloadStatus true = 200 ∧
    reloadStatus false = 500 ∧
    chatStatus r ≠ 503 ∧
    reloadStatus b ≠ 503 := by
  refine ⟨fun t => rfl, fun e => rfl, rfl, rfl, ?_, ?_⟩
  · cases r <;> simp [chatStatus]
  · cases b <;> simp [reloadStatus]

end CampusMate
